import Mathlib

/-!
Desarrollo Sustentable single-page site: view selector, upload registry, canned download.

Shallow embedding of `src/sitio_desarrollo_sustentable_5_secciones.jsx`.

* React state (`active`, `uploads`) is an explicit `State` record; every event
  handler is a function on it.
* The browser objects touched by `downloadTextAs` (object-URL store, document
  body, the save-file channel) are an explicit `Host` record with an effect log.
* A content component is the record of props it hands to the `Section` component;
  JSX values keep the difference between a component and an element, and
  mounting an element whose type is not a component fails as React does.
-/

namespace SustainableSite

/-! ## Static data: `sections` and the content pages -/

/-- One entry of the `sections` array. -/
structure SectionEntry where
  id : String
  title : String
deriving DecidableEq, Repr

/-- The `sections` constant. -/
def sections : List SectionEntry :=
  [ { id := "agenda21", title := "La Agenda 21" },
    { id := "milenio", title := "La Declaración del Milenio" },
    { id := "desarrollo", title := "Desarrollo sustentable" },
    { id := "participacion", title := "Participación social e institucional" },
    { id := "economia", title := "Economía y ambiente" } ]

/-- Props received by the `Section` component, i.e. what a content page shows:
an `h2` with `title`, a paragraph with `lead`, one `li` per bullet. -/
structure Page where
  title : String
  lead : String
  bullets : List String
deriving DecidableEq, Repr

/-- The `Agenda21` component. -/
def Agenda21 : Page :=
  { title := "La Agenda 21"
    lead := "Plan de acción adoptado en la Cumbre de la Tierra (Río 1992) con líneas estratégicas para desarrollo sostenible a nivel global, nacional y local."
    bullets :=
      [ "Ejes: dimensión social, económica, ambiental y fortalecimiento de actores.",
        "Capítulos sobre combate a la pobreza, patrones de consumo, biodiversidad, agua y residuos.",
        "Impulsa Agenda 21 local: planes municipales con participación ciudadana." ] }

/-- The `Milenio` component. -/
def Milenio : Page :=
  { title := "La Declaración del Milenio"
    lead := "Compromiso de la Asamblea General de la ONU (2000) que enmarca valores y metas para la paz, el desarrollo y los derechos humanos."
    bullets :=
      [ "Base de los Objetivos de Desarrollo del Milenio (2000–2015).",
        "Pilares: libertad, igualdad, solidaridad, tolerancia, respeto a la naturaleza y responsabilidad común.",
        "Énfasis en reducción de pobreza extrema y cooperación internacional." ] }

/-- The `Desarrollo` component. -/
def Desarrollo : Page :=
  { title := "Desarrollo sustentable"
    lead := "Modelo que satisface las necesidades presentes sin comprometer la capacidad de las futuras generaciones. Integra dimensiones ambiental, social y económica."
    bullets :=
      [ "Economía circular y eficiencia de recursos.",
        "Transición energética y descarbonización.",
        "Gestión integral del agua, suelos y biodiversidad." ] }

/-- The `Participacion` component. -/
def Participacion : Page :=
  { title := "Participación social e institucional"
    lead := "Corresponsabilidad entre ciudadanía, gobierno, academia y empresas para diseñar, ejecutar y evaluar políticas públicas sustentables."
    bullets :=
      [ "Mecanismos: cabildos abiertos, presupuestos participativos, consejos consultivos.",
        "Transparencia, datos abiertos y evaluación de impacto.",
        "Educación ambiental y cultura de la legalidad." ] }

/-- The `Economia` component. -/
def Economia : Page :=
  { title := "Economía y ambiente"
    lead := "Interacción entre sistemas económicos y ecosistemas: internalizar costos ambientales y promover incentivos verdes."
    bullets :=
      [ "Instrumentos: impuestos verdes, mercados de carbono, pagos por servicios ambientales.",
        "Indicadores más allá del PIB: capital natural, huella ecológica.",
        "Innovación, eco-diseño y finanzas sostenibles." ] }

/-- The arms of the `switch (active)` inside `ActivePage`. -/
inductive SwitchArm where
  | caseAgenda21
  | caseMilenio
  | caseDesarrollo
  | caseParticipacion
  | caseEconomia
  | default
deriving DecidableEq, Repr

/-- Which arm of `switch (active)` is entered (strict equality on the case labels,
tested top to bottom). -/
def switchArm (active : String) : SwitchArm :=
  if active = "agenda21" then .caseAgenda21
  else if active = "milenio" then .caseMilenio
  else if active = "desarrollo" then .caseDesarrollo
  else if active = "participacion" then .caseParticipacion
  else if active = "economia" then .caseEconomia
  else .default

/-- The five content components declared under "CONTENT PAGES". -/
inductive Component where
  | agenda21
  | milenio
  | desarrollo
  | participacion
  | economia
deriving DecidableEq, Repr

/-- What calling a content component returns: the props of its `Section`. -/
def Component.render : Component → Page
  | .agenda21 => Agenda21
  | .milenio => Milenio
  | .desarrollo => Desarrollo
  | .participacion => Participacion
  | .economia => Economia

/-- A value that can stand after `<` in JSX: a function component, or a React
element object `<type />` built from such a value. -/
inductive Jsx where
  | component (c : Component)
  | element (type : Jsx)
deriving DecidableEq, Repr

/-- What each arm of the switch returns: the element `<Agenda21 />`, etc. -/
def armElement : SwitchArm → Jsx
  | .caseAgenda21 => .element (.component .agenda21)
  | .caseMilenio => .element (.component .milenio)
  | .caseDesarrollo => .element (.component .desarrollo)
  | .caseParticipacion => .element (.component .participacion)
  | .caseEconomia => .element (.component .economia)
  | .default => .element (.component .agenda21)

/-- The constant `ActivePage` of `SustainableSite`: the value of the `useMemo`
call, a function of `active` only. -/
def ActivePage (active : String) : Jsx :=
  armElement (switchArm active)

/-- The error React throws for an element whose type is an object. -/
def invalidElementType : String :=
  "Element type is invalid: expected a string (for built-in components) or a class/function (for composite components) but got: object."

/-- Mounting the element `<type />`: a function component is called and its
output shown; an element object is not a valid type and React throws. -/
def mount (type : Jsx) : Except String Page :=
  match type with
  | .component c => .ok c.render
  | .element _ => .error invalidElementType

/-! ## Application state and event handlers -/

/-- The part of a browser `File` object visible to the page. -/
structure File where
  name : String
  size : Nat
  type : String
  bytes : List Nat
deriving DecidableEq, Repr

/-- The object literal stored per selected file. -/
structure UploadRecord where
  name : String
  size : Nat
deriving DecidableEq, Repr

/-- The two `useState` cells of `SustainableSite`. -/
structure State where
  active : String
  uploads : List UploadRecord
deriving DecidableEq, Repr

/-- Initial values of the `useState` cells: `sections[0].id` and the empty array. -/
def initialState : State :=
  { active := (sections.head?.map (·.id)).getD "", uploads := [] }

/-- The state setter `setActive`. -/
def setActive (id : String) (s : State) : State :=
  { s with active := id }

/-- The state setter `setUploads`, called with an updater function. -/
def setUploads (upd : List UploadRecord → List UploadRecord) (s : State) : State :=
  { s with uploads := upd s.uploads }

/-- The `onClick` of the nav button rendered for section `sec`. -/
def navOnClick (sec : SectionEntry) (s : State) : State :=
  setActive sec.id s

/-- The `onChange` of the mobile select; `value` is `e.target.value`. -/
def selectOnChange (value : String) (s : State) : State :=
  setActive value s

/-- The `onChange` of the file input; `files` is `e.target.files`, `none` standing
for `null`. -/
def fileOnChange (files : Option (List File)) (s : State) : State :=
  let files := files.getD []
  setUploads (fun u => u ++ files.map (fun f => { name := f.name, size := f.size })) s

/-! ## Upload list rendering: `(f.size / 1024).toFixed(1)` -/

/-- A finite, non-negative JavaScript Number whose mathematical value is exactly
`num / den` (with `den` positive). File sizes are integers and the only
operation applied to them is a division by `1024`, which on binary64 values only
lowers the exponent, so every Number met here is represented without rounding. -/
structure Number where
  num : Nat
  den : Nat
deriving DecidableEq, Repr

/-- The Number holding an integer byte count. -/
def Number.ofNat (n : Nat) : Number :=
  { num := n, den := 1 }

/-- The quotient `x / 2^k`. -/
def Number.divPow2 (x : Number) (k : Nat) : Number :=
  { num := x.num, den := x.den * 2 ^ k }

/-- The mathematical value of a Number. -/
def Number.toRat (x : Number) : ℚ :=
  (x.num : ℚ) / (x.den : ℚ)

/-- The builtin `Number.prototype.toFixed(fractionDigits)` on a finite
non-negative Number, following the steps of the language standard:
a RangeError for more than 100 digits and the exponent form used from `10^21`
on are reported as `none`; otherwise `n` is the integer for which
`n / 10^f - x` is closest to zero (the larger one of two), `m` its decimal
digits, left-padded with zeros to `f + 1` digits, and the result is the first
`k - f` digits, a point, and the last `f` digits. -/
def toFixed (x : Number) (fractionDigits : Nat) : Option String :=
  let f := fractionDigits
  if 100 < f then none
  else if 10 ^ 21 * x.den ≤ x.num then none
  else
    let n := (2 * x.num * 10 ^ f + x.den) / (2 * x.den)
    let m := if n = 0 then ['0'] else Nat.toDigits 10 n
    let m :=
      if f ≠ 0 then
        let k := m.length
        let m := if k ≤ f then List.replicate (f + 1 - k) '0' ++ m else m
        let k := if k ≤ f then f + 1 else k
        m.take (k - f) ++ '.' :: m.drop (k - f)
      else m
    some (String.mk m)

/-- The expression `(f.size / 1024).toFixed(1)` of an upload row. -/
def kbText (f : UploadRecord) : Option String :=
  toFixed ((Number.ofNat f.size).divPow2 10) 1

/-- One `li` of the upload list: its key, the file name and the value of the
size expression, which the row shows followed by " KB". -/
structure UploadRow where
  key : Nat
  name : String
  kb : Option String
deriving DecidableEq, Repr

/-- The rows produced by `uploads.map((f, i) => ...)`. -/
def uploadRows (uploads : List UploadRecord) : List UploadRow :=
  uploads.mapIdx (fun i f => { key := i, name := f.name, kb := kbText f })

/-- The placeholder row "Aún no hay archivos." is shown when `uploads.length === 0`. -/
def showsEmptyHint (uploads : List UploadRecord) : Bool :=
  decide (uploads.length = 0)

/-! ## Rendered navigation -/

/-- One rendered nav `button`: its React key, its class name and its label. -/
structure NavButton where
  key : String
  className : String
  label : String
deriving DecidableEq, Repr

/-- The class name computed in the template literal of a nav button. -/
def navClassName (active : String) (sec : SectionEntry) : String :=
  "px-3 py-2 rounded-xl text-sm font-medium transition " ++
    (if active = sec.id then "bg-emerald-600 text-white shadow" else "hover:bg-white/70")

/-- The buttons produced by `sections.map` inside `nav`. -/
def navButtons (active : String) : List NavButton :=
  sections.map (fun sec =>
    { key := sec.id, className := navClassName active sec, label := sec.title })

/-- The class name of a button drawn in the active (emerald) style. -/
def highlightedClassName : String :=
  "px-3 py-2 rounded-xl text-sm font-medium transition bg-emerald-600 text-white shadow"

/-- A button is highlighted when it carries the active style. -/
def NavButton.highlighted (b : NavButton) : Bool :=
  decide (b.className = highlightedClassName)

/-- The `value` attributes of the `option`s produced by `sections.map` inside the
mobile `select`. -/
def selectOptions : List String :=
  sections.map (fun sec => sec.id)

/-! ## Host environment used by `downloadTextAs` -/

/-- A `Blob`: its parts and its `type`. -/
structure Blob where
  parts : List String
  type : String
deriving DecidableEq, Repr

/-- An anchor element; `nodeId` is its identity, `href` holds an object-URL id. -/
structure Anchor where
  nodeId : Nat
  href : Option Nat
  download : Option String
deriving DecidableEq, Repr

/-- A file handed to the user by the host: the name it is saved under and the
blob it was read from. -/
structure SavedFile where
  filename : String
  blob : Blob
deriving DecidableEq, Repr

/-- Host calls, in the order they are issued. -/
inductive Effect where
  | newBlob (parts : List String) (type : String)
  | createObjectURL (url : Nat) (blob : Blob)
  | createElement (tag : String) (nodeId : Nat)
  | setHref (nodeId : Nat) (url : Nat)
  | setDownload (nodeId : Nat) (name : String)
  | appendChild (nodeId : Nat)
  | click (nodeId : Nat)
  | remove (nodeId : Nat)
  | revokeObjectURL (url : Nat)
deriving DecidableEq, Repr

/-- Browser state reachable from `downloadTextAs`: the blob URL store, the
children of `document.body`, the files saved so far and the log of calls. -/
structure Host where
  nextUrl : Nat
  urlStore : List (Nat × Blob)
  nextNode : Nat
  body : List Anchor
  saved : List SavedFile
  log : List Effect
deriving DecidableEq, Repr

/-- A freshly loaded document. -/
def Host.initial : Host :=
  { nextUrl := 0, urlStore := [], nextNode := 0, body := [], saved := [], log := [] }

/-- The constructor call `new Blob(parts, { type })`. -/
def Host.newBlob (h : Host) (parts : List String) (type : String) : Blob × Host :=
  ({ parts := parts, type := type }, { h with log := h.log ++ [.newBlob parts type] })

/-- The call `URL.createObjectURL(blob)`: a fresh URL is registered in the store. -/
def Host.createObjectURL (h : Host) (blob : Blob) : Nat × Host :=
  (h.nextUrl,
    { h with
      nextUrl := h.nextUrl + 1
      urlStore := (h.nextUrl, blob) :: h.urlStore
      log := h.log ++ [.createObjectURL h.nextUrl blob] })

/-- The call `document.createElement("a")`: a fresh, detached anchor. -/
def Host.createElement (h : Host) (tag : String) : Anchor × Host :=
  ({ nodeId := h.nextNode, href := none, download := none },
    { h with nextNode := h.nextNode + 1, log := h.log ++ [.createElement tag h.nextNode] })

/-- The assignment `a.href = url`. -/
def Host.setHref (h : Host) (a : Anchor) (url : Nat) : Anchor × Host :=
  ({ a with href := some url }, { h with log := h.log ++ [.setHref a.nodeId url] })

/-- The assignment `a.download = name`. -/
def Host.setDownload (h : Host) (a : Anchor) (name : String) : Anchor × Host :=
  ({ a with download := some name }, { h with log := h.log ++ [.setDownload a.nodeId name] })

/-- The call `document.body.appendChild(a)`. -/
def Host.appendChild (h : Host) (a : Anchor) : Host :=
  { h with body := h.body ++ [a], log := h.log ++ [.appendChild a.nodeId] }

/-- The call `a.click()`: an anchor with a `download` attribute whose `href`
resolves in the URL store makes the host save that blob under that name. -/
def Host.click (h : Host) (a : Anchor) : Host :=
  let h := { h with log := h.log ++ [.click a.nodeId] }
  match a.href, a.download with
  | some url, some name =>
    match h.urlStore.lookup url with
    | some blob => { h with saved := h.saved ++ [{ filename := name, blob := blob }] }
    | none => h
  | _, _ => h

/-- The call `a.remove()`: the node is detached from the body. -/
def Host.remove (h : Host) (a : Anchor) : Host :=
  { h with
    body := h.body.filter (fun n => decide (n.nodeId ≠ a.nodeId))
    log := h.log ++ [.remove a.nodeId] }

/-- The call `URL.revokeObjectURL(url)`: the URL leaves the store. -/
def Host.revokeObjectURL (h : Host) (url : Nat) : Host :=
  { h with
    urlStore := h.urlStore.filter (fun e => decide (e.1 ≠ url))
    log := h.log ++ [.revokeObjectURL url] }

/-- The function `downloadTextAs(name, text, mime = "application/pdf")`. -/
def downloadTextAs (name text : String) (mime : Option String) (h : Host) : Host :=
  let mime := mime.getD "application/pdf"
  let (blob, h) := h.newBlob [text] mime
  let (url, h) := h.createObjectURL blob
  let (a, h) := h.createElement "a"
  let (a, h) := h.setHref a url
  let (a, h) := h.setDownload a name
  let h := h.appendChild a
  let h := h.click a
  let h := h.remove a
  h.revokeObjectURL url

/-- The text literal passed by the download button. -/
def dossierText : String :=
  "Dossier de consulta – Desarrollo sustentable (resumen).\n\n1) Conceptos clave...\n2) Marco internacional...\n3) Buenas prácticas...\n\nEste material es de referencia educativa."

/-- The `onClick` of the "Descargar PDF" button. -/
def downloadOnClick (h : Host) : Host :=
  downloadTextAs "dossier_sustentabilidad.pdf" dossierText (some "application/pdf") h

/-! ## Whole page: state, host and user actions -/

/-- React state together with the browser state. -/
structure World where
  state : State
  host : Host
deriving DecidableEq, Repr

/-- The page right after the first render. -/
def World.initial : World :=
  { state := initialState, host := Host.initial }

/-- A user interaction with one of the rendered controls. -/
inductive Action where
  | navClick (sec : SectionEntry)
  | selectChange (value : String)
  | fileChange (files : Option (List File))
  | downloadClick
deriving DecidableEq, Repr

/-- An action can be performed only on a control that is rendered: a nav button
exists per entry of `sections`, and the select offers the rendered option values. -/
def Action.enabled : Action → Prop
  | .navClick sec => sec ∈ sections
  | .selectChange value => value ∈ selectOptions
  | .fileChange _ => True
  | .downloadClick => True

instance (a : Action) : Decidable a.enabled := by
  cases a <;> unfold Action.enabled <;> infer_instance

/-- The handler run by each action. -/
def step (a : Action) (w : World) : World :=
  match a with
  | .navClick sec => { w with state := navOnClick sec w.state }
  | .selectChange value => { w with state := selectOnChange value w.state }
  | .fileChange files => { w with state := fileOnChange files w.state }
  | .downloadClick => { w with host := downloadOnClick w.host }

/-- Handlers run one after the other, in the order of the interactions. -/
def run (as : List Action) (w : World) : World :=
  as.foldl (fun w a => step a w) w

/-- Worlds reachable from the first render by enabled user actions. -/
inductive Reachable : World → Prop where
  | init : Reachable World.initial
  | step {w : World} (a : Action) : Reachable w → a.enabled → Reachable (step a w)

/-- The content pane, line `<ActivePage />`: the element whose type is the
memoised value is mounted. -/
def renderedPage (w : World) : Except String Page :=
  mount (ActivePage w.state.active)

/-- What the mounted page shows: the nav buttons, the select options, the upload
rows with the empty hint, and the content pane. -/
structure View where
  nav : List NavButton
  options : List String
  rows : List UploadRow
  emptyHint : Bool
  content : Page
deriving DecidableEq, Repr

/-- Rendering `SustainableSite` in a given state. There is no error boundary, so
an error thrown while mounting the content pane leaves nothing mounted. -/
def renderSite (s : State) : Except String View :=
  match mount (ActivePage s.active) with
  | .ok content =>
    .ok { nav := navButtons s.active, options := selectOptions, rows := uploadRows s.uploads,
          emptyHint := showsEmptyHint s.uploads, content := content }
  | .error e => .error e

/-- The nav buttons present in the document after rendering. -/
def mountedNavButtons (s : State) : List NavButton :=
  match renderSite s with
  | .ok v => v.nav
  | .error _ => []

/-- The object URLs created by the calls of a log, in order. -/
def createdUrls (log : List Effect) : List Nat :=
  log.filterMap (fun e => match e with
    | .createObjectURL url _ => some url
    | _ => none)

/-- The object URLs revoked by the calls of a log, in order. -/
def revokedUrls (log : List Effect) : List Nat :=
  log.filterMap (fun e => match e with
    | .revokeObjectURL url => some url
    | _ => none)

/-- A host in which node ids and object-URL ids handed out so far are below the
next fresh id. -/
def Host.WF (h : Host) : Prop :=
  (∀ n ∈ h.body, n.nodeId < h.nextNode) ∧ (∀ e ∈ h.urlStore, e.1 < h.nextUrl)

/-! ## Helper lemmas -/

theorem mem_selectOptions_cases {v : String} (h : v ∈ selectOptions) :
    v = "agenda21" ∨ v = "milenio" ∨ v = "desarrollo" ∨ v = "participacion" ∨ v = "economia" := by
  simpa [selectOptions, sections] using h

theorem step_active_mem (a : Action) (w : World) (ha : a.enabled)
    (hw : w.state.active ∈ selectOptions) : (step a w).state.active ∈ selectOptions := by
  cases a with
  | navClick sec =>
    have hs : sec ∈ sections := ha
    exact List.mem_map_of_mem (fun sec => sec.id) hs
  | selectChange value => exact ha
  | fileChange files => exact hw
  | downloadClick => exact hw

theorem reachable_active_mem {w : World} (hw : Reachable w) :
    w.state.active ∈ selectOptions := by
  induction hw with
  | init => decide
  | step a _ ha ih => exact step_active_mem a _ ha ih

theorem lookup_filter_ne_self (url : Nat) (l : List (Nat × Blob)) :
    (l.filter (fun e => decide (e.1 ≠ url))).lookup url = none := by
  induction l with
  | nil => rfl
  | cons e l ih =>
    obtain ⟨k, b⟩ := e
    by_cases he : k = url
    · rw [List.filter_cons_of_neg (by simpa using he)]
      exact ih
    · have hne : (url == k) = false := by
        simpa using fun h => he h.symm
      rw [List.filter_cons_of_pos (by simpa using he), List.lookup_cons, hne]
      exact ih

theorem filter_ne_of_lt_body (k : Nat) (l : List Anchor) (h : ∀ n ∈ l, n.nodeId < k) :
    l.filter (fun n => decide (n.nodeId ≠ k)) = l := by
  rw [List.filter_eq_self]
  intro n hn
  have := h n hn
  simpa using Nat.ne_of_lt this

theorem filter_ne_of_lt_store (k : Nat) (l : List (Nat × Blob)) (h : ∀ e ∈ l, e.1 < k) :
    l.filter (fun e => decide (e.1 ≠ k)) = l := by
  rw [List.filter_eq_self]
  intro e he
  have := h e he
  simpa using Nat.ne_of_lt this

/-- Closed form of the host left behind by `downloadTextAs`. -/
theorem downloadTextAs_eq (name text : String) (mime : Option String) (h : Host) :
    downloadTextAs name text mime h =
      { nextUrl := h.nextUrl + 1
        urlStore := ((h.nextUrl, (⟨[text], mime.getD "application/pdf"⟩ : Blob)) :: h.urlStore).filter
          (fun e => decide (e.1 ≠ h.nextUrl))
        nextNode := h.nextNode + 1
        body := (h.body ++ [(⟨h.nextNode, some h.nextUrl, some name⟩ : Anchor)]).filter
          (fun n => decide (n.nodeId ≠ h.nextNode))
        saved := h.saved ++ [⟨name, ⟨[text], mime.getD "application/pdf"⟩⟩]
        log := h.log ++
          [ .newBlob [text] (mime.getD "application/pdf"),
            .createObjectURL h.nextUrl ⟨[text], mime.getD "application/pdf"⟩,
            .createElement "a" h.nextNode,
            .setHref h.nextNode h.nextUrl,
            .setDownload h.nextNode name,
            .appendChild h.nextNode,
            .click h.nextNode,
            .remove h.nextNode,
            .revokeObjectURL h.nextUrl ] } := by
  simp [downloadTextAs, Host.newBlob, Host.createObjectURL, Host.createElement, Host.setHref,
    Host.setDownload, Host.appendChild, Host.click, Host.remove, Host.revokeObjectURL,
    List.lookup]

theorem run_cons (a : Action) (as : List Action) (w : World) :
    run (a :: as) w = run as (step a w) := rfl

theorem uploads_grow_step (a : Action) (w : World) :
    w.state.uploads <+: (step a w).state.uploads := by
  cases a with
  | navClick sec => exact List.prefix_refl _
  | selectChange value => exact List.prefix_refl _
  | fileChange files => exact List.prefix_append _ _
  | downloadClick => exact List.prefix_refl _

theorem uploads_grow_run (as : List Action) (w : World) :
    w.state.uploads <+: (run as w).state.uploads := by
  induction as generalizing w with
  | nil => exact List.prefix_refl _
  | cons a as ih =>
    rw [run_cons]
    exact List.IsPrefix.trans (uploads_grow_step a w) (ih (step a w))

theorem toDigitsCore_append (b : Nat) (fuel : Nat) :
    ∀ (n : Nat) (ds : List Char),
      Nat.toDigitsCore b fuel n ds = Nat.toDigitsCore b fuel n [] ++ ds := by
  induction fuel with
  | zero => intro n ds; rfl
  | succ fuel ih =>
    intro n ds
    simp only [Nat.toDigitsCore]
    by_cases h0 : n / b = 0
    · simp [h0]
    · simp only [h0, if_false]
      rw [ih (n / b) (Nat.digitChar (n % b) :: ds), ih (n / b) [Nat.digitChar (n % b)]]
      simp

theorem toDigitsCore_fuel (b : Nat) (hb : 2 ≤ b) (fuel : Nat) :
    ∀ (n fuel2 : Nat) (ds : List Char), n < fuel → n < fuel2 →
      Nat.toDigitsCore b fuel n ds = Nat.toDigitsCore b fuel2 n ds := by
  induction fuel with
  | zero => intro n fuel2 ds h; exact absurd h (Nat.not_lt_zero n)
  | succ fuel ih =>
    intro n fuel2 ds h1 h2
    obtain ⟨g, rfl⟩ : ∃ g, fuel2 = g + 1 := ⟨fuel2 - 1, by omega⟩
    simp only [Nat.toDigitsCore]
    by_cases h0 : n / b = 0
    · simp [h0]
    · simp only [h0, if_false]
      have hlt : n / b < n := by
        have hpos : 0 < n := by
          rcases Nat.eq_zero_or_pos n with hz | hp
          · rw [hz, Nat.zero_div] at h0; exact absurd rfl h0
          · exact hp
        exact Nat.div_lt_self hpos hb
      exact ih (n / b) g _ (by omega) (by omega)

theorem toDigits_ten_step (n : Nat) (hn : 10 ≤ n) :
    Nat.toDigits 10 n = Nat.toDigits 10 (n / 10) ++ [Nat.digitChar (n % 10)] := by
  have h0 : n / 10 ≠ 0 := by omega
  show Nat.toDigitsCore 10 (n + 1) n [] = Nat.toDigitsCore 10 (n / 10 + 1) (n / 10) [] ++ _
  rw [Nat.toDigitsCore]
  simp only [h0, if_false]
  rw [toDigitsCore_append, toDigitsCore_fuel 10 (by decide) n (n / 10) (n / 10 + 1) [] (by omega)
    (by omega)]

theorem toDigits_length_pos (n : Nat) : 0 < (Nat.toDigits 10 n).length := by
  by_cases hn : 10 ≤ n
  · rw [toDigits_ten_step n hn]; simp
  · have : n < 10 := by omega
    interval_cases n <;> decide

/-- The integer nearest to `y`, the larger one of two, is nearer to `y` than any
other integer. -/
theorem nearest_of_floor_half (y : ℚ) (n : ℤ) (h1 : (n : ℚ) ≤ y + 1 / 2)
    (h2 : y + 1 / 2 < (n : ℚ) + 1) (k : ℤ) :
    |(n : ℚ) - y| ≤ |(k : ℚ) - y| ∧ (|(k : ℚ) - y| = |(n : ℚ) - y| → k ≤ n) := by
  have hn : |(n : ℚ) - y| ≤ 1 / 2 := by
    rw [abs_le]; constructor <;> linarith
  rcases lt_trichotomy k n with hk | hk | hk
  · have hk1 : (k : ℚ) + 1 ≤ (n : ℚ) := by exact_mod_cast hk
    refine ⟨?_, fun _ => le_of_lt hk⟩
    have : 1 / 2 ≤ |(k : ℚ) - y| := by
      rw [abs_sub_comm]
      exact le_trans (by linarith) (le_abs_self _)
    linarith
  · subst hk
    exact ⟨le_refl _, fun _ => le_refl _⟩
  · have hk1 : (n : ℚ) + 1 ≤ (k : ℚ) := by exact_mod_cast hk
    have hlt : 1 / 2 < |(k : ℚ) - y| := lt_of_lt_of_le (by linarith) (le_abs_self _)
    refine ⟨by linarith, fun he => ?_⟩
    rw [he] at hlt
    linarith

/-- Shape of `toFixed` with one fraction digit, in terms of the rounded count
of tenths. -/
theorem toFixed_one_digit (x : Number) (hx : ¬ 10 ^ 21 * x.den ≤ x.num) :
    toFixed x 1 =
      some (toString ((2 * x.num * 10 + x.den) / (2 * x.den) / 10) ++ "." ++
        toString ((2 * x.num * 10 + x.den) / (2 * x.den) % 10)) := by
  have hpow : 2 * x.num * 10 ^ 1 = 2 * x.num * 10 := by rw [Nat.pow_one]
  unfold toFixed
  simp only [hx, if_false, hpow, show ¬ (100 < 1) by decide]
  generalize (2 * x.num * 10 + x.den) / (2 * x.den) = n
  by_cases hn : 10 ≤ n
  · have h0 : n ≠ 0 := by omega
    have hlen := toDigits_length_pos (n / 10)
    have hstep := toDigits_ten_step n hn
    have hr1 : toString (n / 10) = String.mk (Nat.toDigits 10 (n / 10)) := rfl
    have hr2 : toString (n % 10) = String.mk [(n % 10).digitChar] := by
      have hm : n % 10 < 10 := Nat.mod_lt _ (by decide)
      generalize n % 10 = r at hm
      interval_cases r <;> rfl
    have hk : ¬ (Nat.toDigits 10 (n / 10) ++ [(n % 10).digitChar]).length ≤ 1 := by
      rw [List.length_append, List.length_singleton]
      omega
    have hsub : (Nat.toDigits 10 (n / 10) ++ [(n % 10).digitChar]).length - 1 =
        (Nat.toDigits 10 (n / 10)).length := by
      rw [List.length_append, List.length_singleton, Nat.add_sub_cancel]
    simp only [h0, if_false, hstep, hk, hsub, ne_eq, one_ne_zero, not_false_eq_true, if_true,
      List.take_left', List.drop_left', hr1, hr2]
    refine congrArg some (String.ext ?_)
    show _ = (Nat.toDigits 10 (n / 10) ++ ['.']) ++ [(n % 10).digitChar]
    rw [List.append_assoc]
    rfl
  · have : n < 10 := by omega
    interval_cases n <;> decide

theorem armElement_is_element (arm : SwitchArm) :
    ∃ c : Component, armElement arm = .element (.component c) := by
  cases arm <;> exact ⟨_, rfl⟩

theorem mount_ActivePage (active : String) :
    mount (ActivePage active) = .error invalidElementType := by
  obtain ⟨c, hc⟩ := armElement_is_element (switchArm active)
  unfold ActivePage
  rw [hc]
  rfl

theorem renderSite_error (s : State) : renderSite s = .error invalidElementType := by
  unfold renderSite
  rw [mount_ActivePage]

/-! ## Theorems -/

/-- C1 (evaluation of the code): for every id and every state, selecting the id
makes it the active id, and for the five ids of `sections` the memoised switch
value is the element of the matching component, whose title is the one recorded
in `sections`; but the content pane mounts `<ActivePage />`, an element whose
type is that element object, so mounting throws and neither that section's page
nor anything else of the site is rendered. -/
theorem select_then_mount_throws (id : String) (s : State) :
    (setActive id s).active = id ∧
    (selectOnChange id s).active = id ∧
    renderedPage ⟨setActive id s, Host.initial⟩ = .error invalidElementType ∧
    renderSite (setActive id s) = .error invalidElementType ∧
    (renderedPage ⟨setActive id s, Host.initial⟩).toOption = none ∧
    ActivePage "agenda21" = .element (.component .agenda21) ∧
    ActivePage "milenio" = .element (.component .milenio) ∧
    ActivePage "desarrollo" = .element (.component .desarrollo) ∧
    ActivePage "participacion" = .element (.component .participacion) ∧
    ActivePage "economia" = .element (.component .economia) ∧
    sections.map (fun sec => ActivePage sec.id) =
      [Component.agenda21, .milenio, .desarrollo, .participacion, .economia].map
        (fun c => Jsx.element (.component c)) ∧
    [Component.agenda21, .milenio, .desarrollo, .participacion, .economia].map
        (fun c => c.render.title) = sections.map (fun sec => sec.title) := by
  have hm : renderedPage ⟨setActive id s, Host.initial⟩ = .error invalidElementType :=
    mount_ActivePage _
  refine ⟨rfl, rfl, hm, renderSite_error _, ?_, by decide, by decide, by decide, by decide,
    by decide, by decide, by decide⟩
  rw [hm]
  rfl

/-- C2: for every upload list `u` and every selection `files` of N files, the file
input handler yields `u` followed by the `{name, size}` of the selected files in
selection order, so the list has length `|u| + N`, its first `|u|` records are `u`
and its last N are the new records; the active id is untouched; an empty
selection or a null `e.target.files` leaves the state as it was. -/
theorem fileOnChange_appends (active : String) (u : List UploadRecord) (files : List File) :
    (fileOnChange (some files) ⟨active, u⟩).uploads =
      u ++ files.map (fun f => ({ name := f.name, size := f.size } : UploadRecord)) ∧
    (fileOnChange (some files) ⟨active, u⟩).uploads.length = u.length + files.length ∧
    (fileOnChange (some files) ⟨active, u⟩).uploads.take u.length = u ∧
    (fileOnChange (some files) ⟨active, u⟩).uploads.drop u.length =
      files.map (fun f => ({ name := f.name, size := f.size } : UploadRecord)) ∧
    (∀ i (hi : i < files.length),
      (fileOnChange (some files) ⟨active, u⟩).uploads[u.length + i]? =
        some { name := (files.get ⟨i, hi⟩).name, size := (files.get ⟨i, hi⟩).size }) ∧
    (fileOnChange (some files) ⟨active, u⟩).active = active ∧
    fileOnChange (some []) ⟨active, u⟩ = ⟨active, u⟩ ∧
    fileOnChange none ⟨active, u⟩ = ⟨active, u⟩ := by
  refine ⟨rfl, ?_, ?_, ?_, ?_, rfl, ?_, ?_⟩
  · simp [fileOnChange, setUploads]
  · simp [fileOnChange, setUploads]
  · simp [fileOnChange, setUploads]
  · intro i hi
    show (u ++ files.map (fun f => ({ name := f.name, size := f.size } : UploadRecord)))[u.length + i]? = _
    rw [List.getElem?_append_right (Nat.le_add_right _ _), Nat.add_sub_cancel_left,
      List.getElem?_map, List.getElem?_eq_getElem hi]
    rfl
  · simp [fileOnChange, setUploads]
  · simp [fileOnChange, setUploads]

/-- C4: in every world reachable from the first render by enabled user actions
the active id is one of the five ids of `sections`; it is not the empty string
and the switch does not enter its default arm. -/
theorem active_always_valid (w : World) (hw : Reachable w) :
    w.state.active ∈ sections.map (fun sec => sec.id) ∧
    w.state.active ∈ ["agenda21", "milenio", "desarrollo", "participacion", "economia"] ∧
    w.state.active ≠ "" ∧
    switchArm w.state.active ≠ SwitchArm.default := by
  have h := reachable_active_mem hw
  refine ⟨h, ?_, ?_, ?_⟩
  · exact h
  · rcases mem_selectOptions_cases h with h | h | h | h | h <;> rw [h] <;> decide
  · rcases mem_selectOptions_cases h with h | h | h | h | h <;> rw [h] <;> decide

/-- Instance of C4 after a dropdown change, a file selection, a download and a
nav click. -/
theorem active_always_valid_witness :
    Reachable (run [.selectChange "economia", .fileChange (some [⟨"a.txt", 3, "text/plain", [1, 2, 3]⟩]),
        .downloadClick, .navClick ⟨"milenio", "La Declaración del Milenio"⟩] World.initial) ∧
    (run [.selectChange "economia", .fileChange (some [⟨"a.txt", 3, "text/plain", [1, 2, 3]⟩]),
        .downloadClick, .navClick ⟨"milenio", "La Declaración del Milenio"⟩]
        World.initial).state.active ∈
      ["agenda21", "milenio", "desarrollo", "participacion", "economia"] :=
  have hr : Reachable (run [.selectChange "economia",
      .fileChange (some [⟨"a.txt", 3, "text/plain", [1, 2, 3]⟩]),
      .downloadClick, .navClick ⟨"milenio", "La Declaración del Milenio"⟩] World.initial) :=
    Reachable.step (.navClick ⟨"milenio", "La Declaración del Milenio"⟩)
      (Reachable.step .downloadClick
        (Reachable.step (.fileChange (some [⟨"a.txt", 3, "text/plain", [1, 2, 3]⟩]))
          (Reachable.step (.selectChange "economia") Reachable.init (by decide))
          trivial)
        trivial)
      (by decide)
  ⟨hr, (active_always_valid _ hr).2.1⟩

/-- C6: selecting is idempotent. For every world and every entry of `sections`,
selecting the entry twice (by nav button or by the select) gives the same world
as selecting it once, and when its id is already the active id the selection
leaves the world, hence the active id, the upload list and the rendered page,
unchanged. -/
theorem select_idempotent (w : World) (sec : SectionEntry) (hsec : sec ∈ sections) :
    step (.navClick sec) (step (.navClick sec) w) = step (.navClick sec) w ∧
    step (.selectChange sec.id) (step (.selectChange sec.id) w) = step (.selectChange sec.id) w ∧
    step (.selectChange sec.id) (step (.navClick sec) w) = step (.navClick sec) w ∧
    setActive sec.id (setActive sec.id w.state) = setActive sec.id w.state ∧
    (w.state.active = sec.id →
      step (.navClick sec) w = w ∧ step (.selectChange sec.id) w = w ∧
      setActive sec.id w.state = w.state ∧
      renderedPage (step (.navClick sec) w) = renderedPage w ∧
      (step (.navClick sec) w).state.uploads = w.state.uploads) := by
  have _ := hsec
  refine ⟨rfl, rfl, rfl, rfl, ?_⟩
  intro h
  obtain ⟨⟨a, u⟩, host⟩ := w
  simp only at h
  subst h
  exact ⟨rfl, rfl, rfl, rfl, rfl⟩

/-- Instance of C6: clicking "La Agenda 21" on the first render changes nothing. -/
theorem select_idempotent_witness :
    (⟨"agenda21", "La Agenda 21"⟩ : SectionEntry) ∈ sections ∧
    World.initial.state.active = "agenda21" ∧
    step (.navClick ⟨"agenda21", "La Agenda 21"⟩) World.initial = World.initial :=
  ⟨by decide, by decide,
    ((select_idempotent World.initial ⟨"agenda21", "La Agenda 21"⟩ (by decide)).2.2.2.2
      (by decide)).1⟩

/-- C5: in every world the download click saves one file named
"dossier_sustentabilidad.pdf" whose blob has type "application/pdf" and whose only
part is the fixed text; the saved file is the same whatever the active id and
the upload list are, and the click leaves both of them as they were. -/
theorem download_fixed_payload (w : World) :
    (step .downloadClick w).state = w.state ∧
    (step .downloadClick w).host.saved =
      w.host.saved ++ [⟨"dossier_sustentabilidad.pdf", ⟨[dossierText], "application/pdf"⟩⟩] ∧
    (∀ w₂ : World, (step .downloadClick w).host.saved.getLast? =
      (step .downloadClick w₂).host.saved.getLast?) ∧
    (∀ (active : String) (uploads : List UploadRecord),
      (step .downloadClick { w with state := ⟨active, uploads⟩ }).host =
        (step .downloadClick w).host) ∧
    dossierText =
      "Dossier de consulta – Desarrollo sustentable (resumen).\n\n1) Conceptos clave...\n2) Marco internacional...\n3) Buenas prácticas...\n\nEste material es de referencia educativa." := by
  have hs : ∀ v : World, (step .downloadClick v).host.saved =
      v.host.saved ++ [⟨"dossier_sustentabilidad.pdf", ⟨[dossierText], "application/pdf"⟩⟩] := by
    intro v
    show (downloadTextAs _ _ _ v.host).saved = _
    rw [downloadTextAs_eq]
    rfl
  refine ⟨rfl, hs w, ?_, fun _ _ => rfl, rfl⟩
  intro w₂
  rw [hs w, hs w₂, List.getLast?_append, List.getLast?_append]
  rfl

/-- C7: the upload list is append-only. For every action and every sequence of
actions the list before is a prefix of the list after, so its length never
decreases; and selecting one file always adds one record at the end, raising the
number of occurrences of that record by one even when it is already listed. -/
theorem uploads_append_only (w : World) (a : Action) (as : List Action) (f : File) :
    w.state.uploads <+: (step a w).state.uploads ∧
    w.state.uploads <+: (run as w).state.uploads ∧
    w.state.uploads.length ≤ (run as w).state.uploads.length ∧
    (step (.fileChange (some [f])) w).state.uploads = w.state.uploads ++ [⟨f.name, f.size⟩] ∧
    (step (.fileChange (some [f])) w).state.uploads.length = w.state.uploads.length + 1 ∧
    (step (.fileChange (some [f])) w).state.uploads.count ⟨f.name, f.size⟩ =
      w.state.uploads.count ⟨f.name, f.size⟩ + 1 := by
  refine ⟨uploads_grow_step a w, uploads_grow_run as w,
    (uploads_grow_run as w).length_le, rfl, ?_, ?_⟩
  · show (w.state.uploads ++ [(⟨f.name, f.size⟩ : UploadRecord)]).length = _
    simp
  · show (w.state.uploads ++ [(⟨f.name, f.size⟩ : UploadRecord)]).count _ = _
    simp

/-- C8 (evaluation of the code): on the first render the active id is
"agenda21", the id of the first entry of `sections`, and the upload list is
empty, but mounting the content pane throws, so the Agenda 21 page is not
rendered; selecting "economia" in any world leaves the upload list and the host
as they were and makes the switch value the Economía element, but the content
pane throws again, so the Economía page is not rendered either. -/
theorem initial_render_throws (w : World) :
    World.initial.state.active = "agenda21" ∧
    sections.head?.map (fun sec => sec.id) = some World.initial.state.active ∧
    World.initial.state.uploads = [] ∧
    renderedPage World.initial = .error invalidElementType ∧
    (renderedPage World.initial).toOption = none ∧
    renderSite World.initial.state = .error invalidElementType ∧
    ActivePage (step (.selectChange "economia") w).state.active =
      .element (.component .economia) ∧
    renderedPage (step (.selectChange "economia") w) = .error invalidElementType ∧
    (renderedPage (step (.selectChange "economia") w)).toOption = none ∧
    renderedPage (step (.navClick ⟨"economia", "Economía y ambiente"⟩) w) =
      .error invalidElementType ∧
    (step (.selectChange "economia") w).state.uploads = w.state.uploads ∧
    (step (.navClick ⟨"economia", "Economía y ambiente"⟩) w).state.uploads = w.state.uploads ∧
    (step (.selectChange "economia") w).host = w.host ∧
    (step (.navClick ⟨"economia", "Economía y ambiente"⟩) w).host = w.host := by
  have h0 : renderedPage World.initial = .error invalidElementType := mount_ActivePage _
  have h1 : renderedPage (step (.selectChange "economia") w) = .error invalidElementType :=
    mount_ActivePage _
  have h2 : renderedPage (step (.navClick ⟨"economia", "Economía y ambiente"⟩) w) =
      .error invalidElementType := mount_ActivePage _
  have he : ActivePage "economia" = .element (.component .economia) := by decide
  refine ⟨by decide, by decide, by decide, h0, ?_, renderSite_error _, he, h1, ?_, h2,
    rfl, rfl, rfl, rfl⟩
  · rw [h0]; rfl
  · rw [h1]; rfl

/-- C10 (evaluation of the code): the ids of `sections` are pairwise distinct
and, for each of the five ids as active id, the button list computed by
`sections.map` has exactly one entry with the highlighted class name, the one
whose key is the active id; but in the first render, as in every state, mounting
the content pane throws, so no nav button is in the document, none is
highlighted and there is no rendered content page whose title could be matched. -/
theorem no_button_mounted (s : State) :
    (sections.map (fun sec => sec.id)).Nodup ∧
    sections.map (fun sec => (navButtons sec.id).countP NavButton.highlighted) =
      sections.map (fun _ => 1) ∧
    sections.map (fun sec => (navButtons sec.id).filter NavButton.highlighted) =
      sections.map (fun sec => [⟨sec.id, highlightedClassName, sec.title⟩]) ∧
    mountedNavButtons World.initial.state = [] ∧
    (mountedNavButtons World.initial.state).countP NavButton.highlighted = 0 ∧
    renderedPage World.initial = .error invalidElementType ∧
    mountedNavButtons s = [] ∧
    renderSite s = .error invalidElementType := by
  have hs : ∀ t : State, mountedNavButtons t = [] := by
    intro t
    unfold mountedNavButtons
    rw [renderSite_error]
  refine ⟨by decide, by decide, by decide, hs _, ?_, mount_ActivePage _, hs s,
    renderSite_error s⟩
  rw [hs]; rfl

/-- C9: every call `downloadTextAs(name, text, mime)` issues exactly these host
calls, in this order: build a blob from `[text]` with type `mime`, create one
object URL for it, create an anchor, set its `href` to that URL and its
`download` to `name`, attach it, click it, remove it, revoke that URL. The one
URL created is the one URL revoked, the revocation comes after the click, the
click saves the blob under `name`, and afterwards the URL is out of the store
and the anchor is not attached; on a well-formed host the body and the URL store
are exactly what they were before the call. -/
theorem downloadTextAs_trace (name text : String) (mime : Option String) (h : Host) :
    (downloadTextAs name text mime h).log = h.log ++
      [ .newBlob [text] (mime.getD "application/pdf"),
        .createObjectURL h.nextUrl ⟨[text], mime.getD "application/pdf"⟩,
        .createElement "a" h.nextNode,
        .setHref h.nextNode h.nextUrl,
        .setDownload h.nextNode name,
        .appendChild h.nextNode,
        .click h.nextNode,
        .remove h.nextNode,
        .revokeObjectURL h.nextUrl ] ∧
    createdUrls ((downloadTextAs name text mime h).log.drop h.log.length) = [h.nextUrl] ∧
    revokedUrls ((downloadTextAs name text mime h).log.drop h.log.length) = [h.nextUrl] ∧
    ((downloadTextAs name text mime h).log.drop h.log.length).indexOf (.click h.nextNode) <
      ((downloadTextAs name text mime h).log.drop h.log.length).indexOf
        (.revokeObjectURL h.nextUrl) ∧
    (downloadTextAs name text mime h).saved =
      h.saved ++ [⟨name, ⟨[text], mime.getD "application/pdf"⟩⟩] ∧
    (downloadTextAs name text mime h).urlStore.lookup h.nextUrl = none ∧
    (∀ n ∈ (downloadTextAs name text mime h).body, n.nodeId ≠ h.nextNode) ∧
    (h.WF → (downloadTextAs name text mime h).body = h.body ∧
      (downloadTextAs name text mime h).urlStore = h.urlStore ∧
      (downloadTextAs name text mime h).WF) := by
  rw [downloadTextAs_eq]
  refine ⟨rfl, ?_, ?_, ?_, rfl, lookup_filter_ne_self _ _, ?_, ?_⟩
  · simp [createdUrls]
  · simp [revokedUrls]
  · simp [List.indexOf_cons]
  · intro n hn
    simpa using (List.mem_filter.mp hn).2
  · intro hwf
    have hb : (h.body ++ [(⟨h.nextNode, some h.nextUrl, some name⟩ : Anchor)]).filter
        (fun n => decide (n.nodeId ≠ h.nextNode)) = h.body := by
      rw [List.filter_append, filter_ne_of_lt_body _ _ hwf.1]
      simp
    have hu : ((h.nextUrl, (⟨[text], mime.getD "application/pdf"⟩ : Blob)) :: h.urlStore).filter
        (fun e => decide (e.1 ≠ h.nextUrl)) = h.urlStore := by
      rw [List.filter_cons_of_neg (by simp), filter_ne_of_lt_store _ _ hwf.2]
    refine ⟨hb, hu, ?_, ?_⟩
    · intro n hn
      have hn : n ∈ h.body := by rw [← hb]; exact hn
      exact Nat.lt_succ_of_lt (hwf.1 n hn)
    · intro e he
      have he : e ∈ h.urlStore := by rw [← hu]; exact he
      exact Nat.lt_succ_of_lt (hwf.2 e he)

/-- Instance of C9 on a freshly loaded document. -/
theorem downloadTextAs_trace_witness :
    Host.initial.WF ∧
    (downloadTextAs "notas.pdf" "hola" none Host.initial).body = Host.initial.body ∧
    (downloadTextAs "notas.pdf" "hola" none Host.initial).urlStore = Host.initial.urlStore :=
  have hwf : Host.initial.WF := And.intro (fun _ hn => nomatch hn) (fun _ he => nomatch he)
  ⟨hwf, ((downloadTextAs_trace "notas.pdf" "hola" none Host.initial).2.2.2.2.2.2.2 hwf).1,
    ((downloadTextAs_trace "notas.pdf" "hola" none Host.initial).2.2.2.2.2.2.2 hwf).2.1⟩

/-- C3: for every upload record whose size is a non-negative integer below
`1024 * 10^21` bytes (every size a browser reports is), the displayed size text
is `size / 1024` rounded to one decimal place with ties rounded up: with `n` the
integer for which `n / 10 - size / 1024` is closest to zero (the larger of two),
the text is the decimal digits of `n / 10`, a point and the digit `n % 10`. In
particular 1536 shows "1.5", 0 shows "0.0", 2048 shows "2.0", 500 shows "0.5",
the tie 256 shows "0.3", and two files of sizes 2048 and 500 selected in that
order give the rows "2.0" and "0.5" in that order. -/
theorem kbText_one_decimal (name : String) (size : Nat) (hsize : size < 1024 * 10 ^ 21) :
    kbText ⟨name, size⟩ =
      some (toString ((20 * size + 1024) / 2048 / 10) ++ "." ++
        toString ((20 * size + 1024) / 2048 % 10)) ∧
    (∀ k : ℤ,
      |(((20 * size + 1024) / 2048 : ℕ) : ℚ) / 10 - ((Number.ofNat size).divPow2 10).toRat| ≤
        |(k : ℚ) / 10 - ((Number.ofNat size).divPow2 10).toRat| ∧
      (|(k : ℚ) / 10 - ((Number.ofNat size).divPow2 10).toRat| =
        |(((20 * size + 1024) / 2048 : ℕ) : ℚ) / 10 - ((Number.ofNat size).divPow2 10).toRat| →
          k ≤ (((20 * size + 1024) / 2048 : ℕ) : ℤ))) ∧
    ((Number.ofNat size).divPow2 10).toRat = (size : ℚ) / 1024 ∧
    kbText ⟨name, 1536⟩ = some "1.5" ∧
    kbText ⟨name, 0⟩ = some "0.0" ∧
    kbText ⟨name, 2048⟩ = some "2.0" ∧
    kbText ⟨name, 500⟩ = some "0.5" ∧
    kbText ⟨name, 256⟩ = some "0.3" ∧
    (∀ (active : String) (f g : File), f.size = 2048 → g.size = 500 →
      uploadRows (fileOnChange (some [f, g]) ⟨active, []⟩).uploads =
        [⟨0, f.name, some "2.0"⟩, ⟨1, g.name, some "0.5"⟩]) := by
  have hval : ((Number.ofNat size).divPow2 10).toRat = (size : ℚ) / 1024 := by
    simp only [Number.toRat, Number.divPow2, Number.ofNat]
    norm_num
  have hfix : ∀ (nm : String) (sz : Nat), sz < 1024 * 10 ^ 21 →
      kbText ⟨nm, sz⟩ = some (toString ((20 * sz + 1024) / 2048 / 10) ++ "." ++
        toString ((20 * sz + 1024) / 2048 % 10)) := by
    intro nm sz hsz
    have hx : ¬ 10 ^ 21 * ((Number.ofNat sz).divPow2 10).den ≤
        ((Number.ofNat sz).divPow2 10).num := by
      simp only [Number.divPow2, Number.ofNat]
      omega
    have h := toFixed_one_digit ((Number.ofNat sz).divPow2 10) hx
    simp only [Number.divPow2, Number.ofNat] at h
    have e1 : 2 * sz * 10 + 1 * 2 ^ 10 = 20 * sz + 1024 := by omega
    have e2 : 2 * (1 * 2 ^ 10) = 2048 := by norm_num
    rw [e1, e2] at h
    exact h
  refine ⟨hfix name size hsize, ?_, hval, hfix name 1536 (by norm_num), hfix name 0 (by norm_num),
    hfix name 2048 (by norm_num), hfix name 500 (by norm_num), hfix name 256 (by norm_num), ?_⟩
  · intro k
    rw [hval]
    set n : ℕ := (20 * size + 1024) / 2048 with hn
    have hlo : 2048 * n ≤ 20 * size + 1024 := Nat.mul_div_le _ _
    have hhi : 20 * size + 1024 < 2048 * (n + 1) := by
      have := Nat.lt_mul_div_succ (20 * size + 1024) (show 0 < 2048 by decide)
      rw [hn]
      exact this
    have hloQ : (2048 : ℚ) * n ≤ 20 * size + 1024 := by exact_mod_cast hlo
    have hhiQ : (20 : ℚ) * size + 1024 < 2048 * (n + 1) := by exact_mod_cast hhi
    have key := nearest_of_floor_half (10 * ((size : ℚ) / 1024)) (n : ℤ)
      (by push_cast; linarith) (by push_cast; linarith) k
    have hn10 : ((n : ℕ) : ℚ) / 10 - (size : ℚ) / 1024 =
        (((n : ℤ) : ℚ) - 10 * ((size : ℚ) / 1024)) / 10 := by
      push_cast; ring
    have hk10 : (k : ℚ) / 10 - (size : ℚ) / 1024 = ((k : ℚ) - 10 * ((size : ℚ) / 1024)) / 10 := by
      ring
    rw [hn10, hk10, abs_div, abs_div]
    have h10 : (0 : ℚ) < |(10 : ℚ)| := by norm_num
    constructor
    · exact div_le_div_of_nonneg_right key.1 (le_of_lt h10)
    · intro he
      apply key.2
      have := congrArg (fun t => t * |(10 : ℚ)|) he
      simpa [div_mul_cancel₀ _ (ne_of_gt h10)] using this
  · intro active f g hf hg
    have h1 := hfix f.name 2048 (by norm_num)
    have h2 := hfix g.name 500 (by norm_num)
    simp only [fileOnChange, setUploads, uploadRows, Option.getD, List.nil_append, List.map,
      hf, hg, List.mapIdx_cons, List.mapIdx_nil, h1, h2]
    rfl

/-- Instance of C3 at 1536 bytes. -/
theorem kbText_one_decimal_witness :
    1536 < 1024 * 10 ^ 21 ∧ kbText ⟨"apuntes.pdf", 1536⟩ = some "1.5" :=
  ⟨by norm_num, (kbText_one_decimal "apuntes.pdf" 1536 (by norm_num)).1⟩

end SustainableSite
